import Mathlib

/-!
Shallow embedding of `madsim-tonic-build/src/prost.rs`: the builder/configuration
surface, the request/response type-reference resolver, and the dual-emission
orchestration `compile_protos_with_config`, together with theorems settling the
specification's claims about them.

Conventions of the embedding:
* `String` stands for Rust `String`, `PathBuf` and `OsString`; `PathBuf::join`
  becomes `pathJoin` (inserting a `/`).
* Rust's fallible calls (`std::fs::create_dir_all`, the two generation passes)
  are passed in as explicit `Except IoError Unit` outcomes, and the side effects
  of a run are recorded in a chronological `List Event` trace.
* A Rust panic (`unwrap` on an absent `OUT_DIR`, `unreachable!`) is a distinct
  `Failure.panicked` outcome, separate from returned `io::Error`s.
* The token streams produced by `parse::<TokenStream>` / `syn::parse_str` are
  represented by the exact strings handed to those parsers; a malformed name
  aborts generation in the source (`unwrap`), which no claim exercises.
-/

namespace MadsimTonicBuild

/-- Modelled from the spec (section 3, AttributeSet): the attribute store for
generated client/server containers, kept in the crate outside `src/`:
module-level and struct-level attribute lists, append-only. -/
structure Attributes where
  modules : List (String × String)
  structs : List (String × String)
deriving DecidableEq

def Attributes.default : Attributes := ⟨[], []⟩

def Attributes.push_mod (a : Attributes) (path attr : String) : Attributes :=
  { a with modules := a.modules ++ [(path, attr)] }

def Attributes.push_struct (a : Attributes) (path attr : String) : Attributes :=
  { a with structs := a.structs ++ [(path, attr)] }

/-- Modelled from the spec (section 2 item 4, section 4.3): the wrapped
production builder (the external `tonic_build::Builder`), restricted to the
settings the madsim `Builder` forwards into it plus its
`compile_well_known_types` flag. -/
structure TonicBuilder where
  build_client : Bool
  build_server : Bool
  build_transport : Bool
  out_dir : Option String
  server_attributes : Attributes
  client_attributes : Attributes
  proto_path : String
  emit_package : Bool
  compile_well_known_types : Bool
  disable_comments : List String
  use_arc_self : Bool
  generate_default_stubs : Bool
deriving DecidableEq

/-- Modelled from the spec: `tonic_build::configure()`, the default state of the
wrapped production builder. -/
def tonicConfigure : TonicBuilder :=
  { build_client := true
    build_server := true
    build_transport := true
    out_dir := none
    server_attributes := Attributes.default
    client_attributes := Attributes.default
    proto_path := "super"
    emit_package := true
    compile_well_known_types := false
    disable_comments := []
    use_arc_self := false
    generate_default_stubs := false }

/-- The service generator builder (`struct Builder`, prost.rs lines 267-297). -/
structure Builder where
  build_client : Bool
  build_server : Bool
  build_transport : Bool
  file_descriptor_set_path : Option String
  skip_protoc_run : Bool
  extern_path : List (String × String)
  field_attributes : List (String × String)
  type_attributes : List (String × String)
  message_attributes : List (String × String)
  enum_attributes : List (String × String)
  boxed : List String
  btree_map : Option (List String)
  bytes : Option (List String)
  server_attributes : Attributes
  client_attributes : Attributes
  proto_path : String
  emit_package : Bool
  compile_well_known_types : Bool
  protoc_args : List String
  include_file : Option String
  emit_rerun_if_changed : Bool
  disable_comments : List String
  use_arc_self : Bool
  generate_default_stubs : Bool
  out_dir : Option String
  builder : TonicBuilder
deriving DecidableEq

/-- `configure()` (prost.rs lines 15-44).  The source initializes
`emit_rerun_if_changed` from `std::env::var_os("CARGO").is_some()`; that ambient
read is the explicit argument `cargoEnvSet`. -/
def configure (cargoEnvSet : Bool) : Builder :=
  { build_client := true
    build_server := true
    build_transport := true
    file_descriptor_set_path := none
    skip_protoc_run := false
    out_dir := none
    extern_path := []
    field_attributes := []
    message_attributes := []
    enum_attributes := []
    type_attributes := []
    boxed := []
    btree_map := none
    bytes := none
    server_attributes := Attributes.default
    client_attributes := Attributes.default
    proto_path := "super"
    compile_well_known_types := false
    emit_package := true
    protoc_args := []
    include_file := none
    emit_rerun_if_changed := cargoEnvSet
    disable_comments := []
    use_arc_self := false
    generate_default_stubs := false
    builder := tonicConfigure }

/-- `Builder::extern_path` (lines 353-359): pushes one mapping; the wrapped
tonic builder is not touched (the prost `Config` carries extern paths to the
production pass).  Named `set_extern_path` because the record field
`extern_path` occupies the source name. -/
def Builder.set_extern_path (b : Builder) (proto_path rust_path : String) : Builder :=
  { b with extern_path := b.extern_path ++ [(proto_path, rust_path)] }

/-- `Builder::field_attribute` (lines 364-368): pushes one (path, attribute). -/
def Builder.field_attribute (b : Builder) (path attr : String) : Builder :=
  { b with field_attributes := b.field_attributes ++ [(path, attr)] }

/-- `Builder::type_attribute` (lines 373-377): pushes one (path, attribute). -/
def Builder.type_attribute (b : Builder) (path attr : String) : Builder :=
  { b with type_attributes := b.type_attributes ++ [(path, attr)] }

/-- `Builder::message_attribute` (lines 382-390): pushes one (path, attribute). -/
def Builder.message_attribute (b : Builder) (path attr : String) : Builder :=
  { b with message_attributes := b.message_attributes ++ [(path, attr)] }

/-- `Builder::enum_attribute` (lines 395-399): pushes one (path, attribute). -/
def Builder.enum_attribute (b : Builder) (path attr : String) : Builder :=
  { b with enum_attributes := b.enum_attributes ++ [(path, attr)] }

/-- `Builder::boxed` (lines 404-407): pushes one path onto `self.boxed`.
Named `set_boxed` because the record field `boxed` occupies the source name. -/
def Builder.set_boxed (b : Builder) (path : String) : Builder :=
  { b with boxed := b.boxed ++ [path] }

/-- `Builder::btree_map` (lines 415-427): `self.btree_map = Some(collected)`,
replacing any previously configured paths. -/
def Builder.set_btree_map (b : Builder) (paths : List String) : Builder :=
  { b with btree_map := some paths }

/-- `Builder::bytes` (lines 435-447): `self.bytes = Some(collected)`, replacing
any previously configured paths. -/
def Builder.set_bytes (b : Builder) (paths : List String) : Builder :=
  { b with bytes := some paths }

/-- `Builder::out_dir` (lines 342-346): forwards to the wrapped tonic builder
and records the override. -/
def Builder.set_out_dir (b : Builder) (out_dir : String) : Builder :=
  { b with
    builder := { b.builder with out_dir := some out_dir }
    out_dir := some out_dir }

/-- `Builder::proto_path` (lines 501-505): forwards to the wrapped tonic builder
and records the prefix. -/
def Builder.set_proto_path (b : Builder) (proto_path : String) : Builder :=
  { b with
    builder := { b.builder with proto_path := proto_path }
    proto_path := proto_path }

/-- `Builder::compile_well_known_types` (lines 542-545): sets only the madsim
field.  Unlike every other setter with a tonic counterpart, it does not forward
the flag into the wrapped tonic builder. -/
def Builder.set_compile_well_known_types (b : Builder) (compile_well_known_types : Bool) : Builder :=
  { b with compile_well_known_types := compile_well_known_types }

/-! ### The type-reference resolver (adapter layer) -/

/-- `NON_PATH_TYPE_ALLOWLIST` (line 64): non-path Rust types allowed for
request/response types. -/
def NON_PATH_TYPE_ALLOWLIST : List String := ["()"]

/-- Rust `str::starts_with`, computed on the character sequence (equivalent to
`String.startsWith`, but by structural recursion). -/
def strStartsWith (s pre : String) : Bool :=
  pre.data.isPrefixOf s.data

/-- `is_google_type` (lines 187-189). -/
def is_google_type (ty : String) : Bool :=
  strStartsWith ty ".google.protobuf"

/-- `comments.leading` of a prost method (the IDL compiler's record). -/
structure Comments where
  leading : List String
deriving DecidableEq

/-- The IDL compiler's method record (`prost_build::Method`), restricted to the
fields prost.rs reads (spec section 3, MethodDescription). -/
structure Method where
  name : String
  proto_name : String
  comments : Comments
  input_type : String
  output_type : String
  input_proto_type : String
  output_proto_type : String
  client_streaming : Bool
  server_streaming : Bool
deriving DecidableEq

/-- `struct TonicBuildMethod` (lines 88-90): newtype wrapper for prost to add
tonic-specific extensions. -/
structure TonicBuildMethod where
  prost_method : Method
deriving DecidableEq

/-- Result of a call that may panic (`unreachable!`). -/
inductive CallResult (α : Type) where
  | ok (a : α)
  | panicked (msg : String)
deriving DecidableEq

def TonicBuildMethod.name (m : TonicBuildMethod) : String :=
  m.prost_method.name

def TonicBuildMethod.identifier (m : TonicBuildMethod) : String :=
  m.prost_method.proto_name

/-- `TonicBuildMethod::codec_path` (lines 137-139): unconditionally
`unreachable!("codec_path is not used in madsim-tonic-build")`. -/
def TonicBuildMethod.codec_path (_ : TonicBuildMethod) : CallResult String :=
  CallResult.panicked "codec_path is not used in madsim-tonic-build"

def TonicBuildMethod.client_streaming (m : TonicBuildMethod) : Bool :=
  m.prost_method.client_streaming

def TonicBuildMethod.server_streaming (m : TonicBuildMethod) : Bool :=
  m.prost_method.server_streaming

def TonicBuildMethod.comment (m : TonicBuildMethod) : List String :=
  m.prost_method.comments.leading

/-- The closure `convert_type` inside `request_response_name` (lines 158-173).
The returned string is exactly the text the source hands to
`parse::<TokenStream>` / `syn::parse_str::<syn::Path>`. -/
def convert_type (proto_path : String) (compile_well_known_types : Bool)
    (proto_type rust_type : String) : String :=
  if (is_google_type proto_type && !compile_well_known_types)
      || strStartsWith rust_type "::"
      || NON_PATH_TYPE_ALLOWLIST.contains rust_type then
    rust_type
  else if strStartsWith rust_type "crate::" then
    rust_type
  else
    proto_path ++ "::" ++ rust_type

/-- `TonicBuildMethod::request_response_name` (lines 153-184): resolves the
request and the response type reference independently through `convert_type`. -/
def TonicBuildMethod.request_response_name (m : TonicBuildMethod)
    (proto_path : String) (compile_well_known_types : Bool) : String × String :=
  (convert_type proto_path compile_well_known_types
      m.prost_method.input_proto_type m.prost_method.input_type,
   convert_type proto_path compile_well_known_types
      m.prost_method.output_proto_type m.prost_method.output_type)

/-- Modelled from the spec (sections 4.2 and 4.4): the capability set the
emission stage (the `client`/`server` generators, which live in the crate
outside `src/`) reads from a wrapped method.  `codec_path` is not part of it. -/
structure MethodView where
  name : String
  identifier : String
  client_streaming : Bool
  server_streaming : Bool
  comment : List String
  request : String
  response : String
deriving DecidableEq

/-- Modelled from the spec (section 4.2): the adapter view of one method as
consumed by the emission stage; computed fresh per call from the wrapped
record, invoking only the listed capabilities. -/
def TonicBuildMethod.view (m : TonicBuildMethod) (proto_path : String)
    (compile_well_known_types : Bool) : CallResult MethodView :=
  CallResult.ok
    { name := m.name
      identifier := m.identifier
      client_streaming := m.client_streaming
      server_streaming := m.server_streaming
      comment := m.comment
      request := (m.request_response_name proto_path compile_well_known_types).1
      response := (m.request_response_name proto_path compile_well_known_types).2 }

/-! ### The dual-emission orchestration -/

/-- The installed service generator of a prost `Config`
(`Config::service_generator`); madsim installs `ServiceGenerator::new(self)`,
carrying the builder state (lines 191-205, 671, 684-686). -/
inductive ServiceGen where
  | madsim (b : Builder)
deriving DecidableEq

/-- The external `prost_build::Config` (spec section 3, GenerationConfig),
restricted to the settings prost.rs forwards into it.  Its setters append for
`extern_path`, the four attribute lists and `boxed`, replace for `btree_map`
and `bytes`, and irreversibly set `compile_well_known_types`. -/
structure Config where
  out_dir : Option String
  file_descriptor_set_path : Option String
  skip_protoc_run : Bool
  extern_path : List (String × String)
  field_attributes : List (String × String)
  type_attributes : List (String × String)
  message_attributes : List (String × String)
  enum_attributes : List (String × String)
  boxed : List String
  btree_map : List String
  bytes : List String
  compile_well_known_types : Bool
  include_file : Option String
  protoc_args : List String
  service_generator : Option ServiceGen
deriving DecidableEq

/-- `prost_build::Config::new()`: the default configuration. -/
def Config.new : Config :=
  { out_dir := none
    file_descriptor_set_path := none
    skip_protoc_run := false
    extern_path := []
    field_attributes := []
    type_attributes := []
    message_attributes := []
    enum_attributes := []
    boxed := []
    btree_map := []
    bytes := []
    compile_well_known_types := false
    include_file := none
    protoc_args := []
    service_generator := none }

/-- Lines 617-656 of `compile_protos_with_config`: copy every accumulated
setting of the builder onto the prost `Config`, in source order.  Each `for`
loop pushing elements becomes a `foldl` pushing the same elements. -/
def applySettings (b : Builder) (c0 : Config) : Config :=
  let c := match b.file_descriptor_set_path with
    | some p => { c0 with file_descriptor_set_path := some p }
    | none => c0
  let c := if b.skip_protoc_run then { c with skip_protoc_run := true } else c
  let c := b.extern_path.foldl
    (fun c pr => { c with extern_path := c.extern_path ++ [pr] }) c
  let c := b.field_attributes.foldl
    (fun c pa => { c with field_attributes := c.field_attributes ++ [pa] }) c
  let c := b.type_attributes.foldl
    (fun c pa => { c with type_attributes := c.type_attributes ++ [pa] }) c
  let c := b.message_attributes.foldl
    (fun c pa => { c with message_attributes := c.message_attributes ++ [pa] }) c
  let c := b.enum_attributes.foldl
    (fun c pa => { c with enum_attributes := c.enum_attributes ++ [pa] }) c
  let c := b.boxed.foldl
    (fun c p => { c with boxed := c.boxed ++ [p] }) c
  let c := match b.btree_map with
    | some paths => { c with btree_map := paths }
    | none => c
  let c := match b.bytes with
    | some paths => { c with bytes := paths }
    | none => c
  let c := if b.compile_well_known_types then
    { c with compile_well_known_types := true } else c
  let c := match b.include_file with
    | some p => { c with include_file := some p }
    | none => c
  b.protoc_args.foldl
    (fun c a => { c with protoc_args := c.protoc_args ++ [a] }) c

/-- A returned `io::Error` (represented by its message). -/
abbrev IoError : Type := String

/-- Overall outcome of a run: either a returned `io::Error` or a panic. -/
inductive Failure where
  | ioErr (e : IoError)
  | panicked (msg : String)
deriving DecidableEq

/-- Observable side effects of `compile_protos_with_config`, in chronological
order. -/
inductive Event where
  | createDirAll (path : String)
  | rerunIfChanged (path : String)
  | simPass (cfg : Config)
  | prodPass (tonic : TonicBuilder) (cfg : Config)
deriving DecidableEq

/-- `PathBuf::join` for the relative component used here. -/
def pathJoin (base child : String) : String := base ++ "/" ++ child

/-- The panic message of `std::env::var("OUT_DIR").unwrap()` when the variable
is absent. -/
def outDirPanicMsg : String :=
  "called Result::unwrap() on an Err value: NotPresent"

/-- Lines 607-611: the output root is the explicit override when set, otherwise
the `OUT_DIR` environment value (whose absence panics, handled by the caller
of this helper). -/
def resolvedOutDir (b : Builder) (envOutDir : Option String) : Option String :=
  match b.out_dir with
  | some d => some d
  | none => envOutDir

/-- Lines 612-679 of `compile_protos_with_config`, after the output root has
been resolved to `out_dir`.  `mkdirResult`, `simResult` and `prodResult` are
the outcomes of `std::fs::create_dir_all`, of `config.compile_protos` (the
simulated pass) and of the wrapped tonic builder's
`compile_protos_with_config` (the production pass). -/
def compileAfterOutDir (b : Builder) (config : Config)
    (mkdirResult simResult prodResult : Except IoError Unit)
    (protos includes : List String) (out_dir : String) :
    Except Failure Unit × List Event :=
  -- let builder = std::mem::replace(&mut self.builder, tonic_build::configure())
  let builder := b.builder
  let self := { b with builder := tonicConfigure }
  let out_dir_sim := pathJoin out_dir "sim"
  match mkdirResult with
  | Except.error e => (Except.error (Failure.ioErr e), [Event.createDirAll out_dir_sim])
  | Except.ok _ =>
    let config := applySettings self { config with out_dir := some out_dir_sim }
    let rerun := if self.emit_rerun_if_changed then
      protos.map Event.rerunIfChanged ++ includes.map Event.rerunIfChanged
    else []
    let cfgSim := { config with service_generator := some (ServiceGen.madsim self) }
    let evs := Event.createDirAll out_dir_sim :: rerun ++ [Event.simPass cfgSim]
    match simResult with
    | Except.error e => (Except.error (Failure.ioErr e), evs)
    | Except.ok _ =>
      let cfgProd := { cfgSim with out_dir := some out_dir }
      let evs := evs ++ [Event.prodPass builder cfgProd]
      match prodResult with
      | Except.error e => (Except.error (Failure.ioErr e), evs)
      | Except.ok _ => (Except.ok (), evs)

/-- `Builder::compile_protos_with_config` (lines 599-680). -/
def compile_protos_with_config (b : Builder) (config : Config)
    (envOutDir : Option String)
    (mkdirResult simResult prodResult : Except IoError Unit)
    (protos includes : List String) :
    Except Failure Unit × List Event :=
  match resolvedOutDir b envOutDir with
  | some out_dir =>
      compileAfterOutDir b config mkdirResult simResult prodResult protos includes out_dir
  | none => (Except.error (Failure.panicked outDirPanicMsg), [])

/-- Which generation passes a trace ran, in order. -/
inductive PassKind where
  | sim
  | prod
deriving DecidableEq

def passTrace (tr : List Event) : List PassKind :=
  tr.filterMap fun e =>
    match e with
    | Event.simPass _ => some PassKind.sim
    | Event.prodPass _ _ => some PassKind.prod
    | _ => none

/-- Checks whether an outcome is a returned `io::Error` (as opposed to success
or a panic). -/
def isIoErr : Except Failure Unit → Bool
  | Except.error (Failure.ioErr _) => true
  | _ => false

/-- The `compile_well_known_types` flag of the builder state captured by the
simulated pass's installed service generator, if a simulated pass appears in
the trace. -/
def simPassGenCwkt (tr : List Event) : Option Bool :=
  tr.findSome? fun e =>
    match e with
    | Event.simPass cfg =>
      match cfg.service_generator with
      | some (ServiceGen.madsim g) => some g.compile_well_known_types
      | _ => none
    | _ => none

/-- The `compile_well_known_types` flag of the wrapped tonic builder that the
production pass is delegated to, if a production pass appears in the trace. -/
def prodPassTonicCwkt (tr : List Event) : Option Bool :=
  tr.findSome? fun e =>
    match e with
    | Event.prodPass tb _ => some tb.compile_well_known_types
    | _ => none

/-! ### Characterization lemmas -/

theorem foldl_extern_path_eq (xs : List (String × String)) (c : Config) :
    xs.foldl (fun c pr => { c with extern_path := c.extern_path ++ [pr] }) c
      = { c with extern_path := c.extern_path ++ xs } := by
  induction xs generalizing c with
  | nil => simp
  | cons x xs ih => simp [List.foldl_cons, ih]

theorem foldl_field_attributes_eq (xs : List (String × String)) (c : Config) :
    xs.foldl (fun c pa => { c with field_attributes := c.field_attributes ++ [pa] }) c
      = { c with field_attributes := c.field_attributes ++ xs } := by
  induction xs generalizing c with
  | nil => simp
  | cons x xs ih => simp [List.foldl_cons, ih]

theorem foldl_type_attributes_eq (xs : List (String × String)) (c : Config) :
    xs.foldl (fun c pa => { c with type_attributes := c.type_attributes ++ [pa] }) c
      = { c with type_attributes := c.type_attributes ++ xs } := by
  induction xs generalizing c with
  | nil => simp
  | cons x xs ih => simp [List.foldl_cons, ih]

theorem foldl_message_attributes_eq (xs : List (String × String)) (c : Config) :
    xs.foldl (fun c pa => { c with message_attributes := c.message_attributes ++ [pa] }) c
      = { c with message_attributes := c.message_attributes ++ xs } := by
  induction xs generalizing c with
  | nil => simp
  | cons x xs ih => simp [List.foldl_cons, ih]

theorem foldl_enum_attributes_eq (xs : List (String × String)) (c : Config) :
    xs.foldl (fun c pa => { c with enum_attributes := c.enum_attributes ++ [pa] }) c
      = { c with enum_attributes := c.enum_attributes ++ xs } := by
  induction xs generalizing c with
  | nil => simp
  | cons x xs ih => simp [List.foldl_cons, ih]

theorem foldl_boxed_eq (xs : List String) (c : Config) :
    xs.foldl (fun c p => { c with boxed := c.boxed ++ [p] }) c
      = { c with boxed := c.boxed ++ xs } := by
  induction xs generalizing c with
  | nil => simp
  | cons x xs ih => simp [List.foldl_cons, ih]

theorem foldl_protoc_args_eq (xs : List String) (c : Config) :
    xs.foldl (fun c a => { c with protoc_args := c.protoc_args ++ [a] }) c
      = { c with protoc_args := c.protoc_args ++ xs } := by
  induction xs generalizing c with
  | nil => simp
  | cons x xs ih => simp [List.foldl_cons, ih]

/-- Closed form of `applySettings`: appended lists append, replacement lists
replace, flags are set irreversibly, option overrides override. -/
theorem applySettings_eq (b : Builder) (c : Config) :
    applySettings b c = { c with
      file_descriptor_set_path := match b.file_descriptor_set_path with
        | some p => some p
        | none => c.file_descriptor_set_path,
      skip_protoc_run := c.skip_protoc_run || b.skip_protoc_run,
      extern_path := c.extern_path ++ b.extern_path,
      field_attributes := c.field_attributes ++ b.field_attributes,
      type_attributes := c.type_attributes ++ b.type_attributes,
      message_attributes := c.message_attributes ++ b.message_attributes,
      enum_attributes := c.enum_attributes ++ b.enum_attributes,
      boxed := c.boxed ++ b.boxed,
      btree_map := match b.btree_map with
        | some paths => paths
        | none => c.btree_map,
      bytes := match b.bytes with
        | some paths => paths
        | none => c.bytes,
      compile_well_known_types := c.compile_well_known_types || b.compile_well_known_types,
      include_file := match b.include_file with
        | some p => some p
        | none => c.include_file,
      protoc_args := c.protoc_args ++ b.protoc_args } := by
  obtain ⟨bc, bs, bt, fds, spr, ep, fa, ta, ma, ea, bx, bm, byt, sa, ca, pp, epk,
    cw, pargs, inc, rrn, dc, uas, gds, od, tb⟩ := b
  obtain ⟨cod, cfds, cspr, cep, cfa, cta, cma, cea, cbx, cbm, cbyt, ccw, cinc,
    cpargs, csg⟩ := c
  cases fds <;> cases bm <;> cases byt <;> cases inc <;> cases spr <;> cases cw <;>
    simp [applySettings, foldl_extern_path_eq, foldl_field_attributes_eq,
      foldl_type_attributes_eq, foldl_message_attributes_eq,
      foldl_enum_attributes_eq, foldl_boxed_eq, foldl_protoc_args_eq]

/-- The prost configuration in force during the simulated pass: the caller's
config with the "sim" output directory, every builder setting applied, and the
madsim service generator installed. -/
def simCfg (b : Builder) (c : Config) (root : String) : Config :=
  { applySettings { b with builder := tonicConfigure }
      { c with out_dir := some (pathJoin root "sim") }
    with service_generator :=
      some (ServiceGen.madsim { b with builder := tonicConfigure }) }

/-- The prost configuration handed to the wrapped tonic builder for the
production pass: the simulated pass's configuration with only the output
directory retargeted to the root. -/
def prodCfg (b : Builder) (c : Config) (root : String) : Config :=
  { simCfg b c root with out_dir := some root }

/-- The event trace of a run, in closed form. -/
theorem compileAfterOutDir_trace (b : Builder) (c : Config)
    (mk sim prod : Except IoError Unit) (protos includes : List String)
    (root : String) :
    (compileAfterOutDir b c mk sim prod protos includes root).2
      = match mk with
        | Except.error _ => [Event.createDirAll (pathJoin root "sim")]
        | Except.ok _ =>
          Event.createDirAll (pathJoin root "sim") ::
            (if b.emit_rerun_if_changed then
              protos.map Event.rerunIfChanged ++ includes.map Event.rerunIfChanged
            else []) ++
            (Event.simPass (simCfg b c root) ::
              match sim with
              | Except.error _ => []
              | Except.ok _ => [Event.prodPass b.builder (prodCfg b c root)]) := by
  cases mk <;> cases sim <;> cases prod <;>
    simp [compileAfterOutDir, simCfg, prodCfg]

/-- The returned outcome of a run, in closed form: the first failure of
mkdir, the simulated pass and the production pass, in that order. -/
theorem compileAfterOutDir_fst (b : Builder) (c : Config)
    (mk sim prod : Except IoError Unit) (protos includes : List String)
    (root : String) :
    (compileAfterOutDir b c mk sim prod protos includes root).1
      = match mk with
        | Except.error e => Except.error (Failure.ioErr e)
        | Except.ok _ =>
          match sim with
          | Except.error e => Except.error (Failure.ioErr e)
          | Except.ok _ =>
            match prod with
            | Except.error e => Except.error (Failure.ioErr e)
            | Except.ok _ => Except.ok () := by
  cases mk <;> cases sim <;> cases prod <;> rfl

theorem compile_resolved (b : Builder) (c : Config) (env : Option String)
    (mk sim prod : Except IoError Unit) (protos includes : List String)
    (root : String) (h : resolvedOutDir b env = some root) :
    compile_protos_with_config b c env mk sim prod protos includes
      = compileAfterOutDir b c mk sim prod protos includes root := by
  unfold compile_protos_with_config
  rw [h]

theorem passTrace_append (l1 l2 : List Event) :
    passTrace (l1 ++ l2) = passTrace l1 ++ passTrace l2 := by
  simp [passTrace]

theorem passTrace_cons_rerun (p : String) (tr : List Event) :
    passTrace (Event.rerunIfChanged p :: tr) = passTrace tr := by
  simp [passTrace, List.filterMap_cons]

theorem passTrace_map_rerun (xs : List String) :
    passTrace (xs.map Event.rerunIfChanged) = [] := by
  induction xs with
  | nil => rfl
  | cons x xs ih => rw [List.map_cons, passTrace_cons_rerun]; exact ih

theorem passTrace_cons_createDir (p : String) (tr : List Event) :
    passTrace (Event.createDirAll p :: tr) = passTrace tr := by
  simp [passTrace, List.filterMap_cons]

theorem passTrace_cons_sim (cfg : Config) (tr : List Event) :
    passTrace (Event.simPass cfg :: tr) = PassKind.sim :: passTrace tr := by
  simp [passTrace, List.filterMap_cons]

theorem passTrace_cons_prod (tb : TonicBuilder) (cfg : Config) (tr : List Event) :
    passTrace (Event.prodPass tb cfg :: tr) = PassKind.prod :: passTrace tr := by
  simp [passTrace, List.filterMap_cons]

theorem passTrace_rerun_if (cond : Bool) (protos includes : List String) :
    passTrace (if cond then
      protos.map Event.rerunIfChanged ++ includes.map Event.rerunIfChanged
    else []) = [] := by
  cases cond <;>
    simp [passTrace_append, passTrace_map_rerun, passTrace]

/-- The only simulated-pass event a run can record carries `simCfg`. -/
theorem simPass_mem_trace (b : Builder) (c : Config)
    (mk sim prod : Except IoError Unit) (protos includes : List String)
    (root : String) (cfg : Config)
    (hmem : Event.simPass cfg
      ∈ (compileAfterOutDir b c mk sim prod protos includes root).2) :
    cfg = simCfg b c root := by
  rw [compileAfterOutDir_trace] at hmem
  cases mk with
  | error e => simp at hmem
  | ok _ =>
    cases sim <;> cases hflag : b.emit_rerun_if_changed <;> rw [hflag] at hmem <;>
      simp at hmem <;> exact hmem

/-- The only production-pass event a run can record delegates to the
accumulated wrapped builder with `prodCfg`. -/
theorem prodPass_mem_trace (b : Builder) (c : Config)
    (mk sim prod : Except IoError Unit) (protos includes : List String)
    (root : String) (tb : TonicBuilder) (cfg : Config)
    (hmem : Event.prodPass tb cfg
      ∈ (compileAfterOutDir b c mk sim prod protos includes root).2) :
    tb = b.builder ∧ cfg = prodCfg b c root := by
  rw [compileAfterOutDir_trace] at hmem
  cases mk with
  | error e => simp at hmem
  | ok _ =>
    cases sim <;> cases hflag : b.emit_rerun_if_changed <;> rw [hflag] at hmem <;>
      simp at hmem <;> exact hmem

/-! ### Claim C1 -/

/-- C1 fails on the code (a code bug): with `compile_well_known_types(true)`
set on the builder, the service generator of the simulated pass carries the
flag as true, while the wrapped tonic builder to which the production pass is
delegated still carries its default false — the setter (prost.rs lines
542-545) never forwards the flag, so the two passes' effective configurations
differ in more than output directory and transport-generator identity. -/
theorem cwkt_flag_not_forwarded :
    simPassGenCwkt ((compile_protos_with_config
        (((configure false).set_out_dir "out").set_compile_well_known_types true)
        Config.new none (Except.ok ()) (Except.ok ()) (Except.ok ()) [] []).2)
      = some true ∧
    prodPassTonicCwkt ((compile_protos_with_config
        (((configure false).set_out_dir "out").set_compile_well_known_types true)
        Config.new none (Except.ok ()) (Except.ok ()) (Except.ok ()) [] []).2)
      = some false := by
  exact ⟨rfl, rfl⟩

/-! ### Claim C7 -/

/-- C7, counterexample: with no output-directory override and OUT_DIR absent,
the run ends in a panic (unwrap on the missing environment value), not in a
returned I/O-style error. -/
theorem missing_out_dir_counterexample :
    (compile_protos_with_config (configure false) Config.new none
        (Except.ok ()) (Except.ok ()) (Except.ok ()) [] [])
      = (Except.error (Failure.panicked outDirPanicMsg), []) ∧
    isIoErr (compile_protos_with_config (configure false) Config.new none
        (Except.ok ()) (Except.ok ()) (Except.ok ()) [] []).1 = false :=
  ⟨rfl, rfl⟩

/-- C7 (amended): when no output-directory override has been set on the
Builder and the OUT_DIR environment value is absent,
compile_protos_with_config panics (aborting the build script) rather than
returning an I/O-style error to the caller; nothing is created and no
generation pass runs. -/
theorem missing_out_dir_panics (b : Builder) (c : Config)
    (mk sim prod : Except IoError Unit) (protos includes : List String)
    (h : b.out_dir = none) :
    compile_protos_with_config b c none mk sim prod protos includes
      = (Except.error (Failure.panicked outDirPanicMsg), []) := by
  unfold compile_protos_with_config resolvedOutDir
  rw [h]

/-- Witness for the amended C7 at a concrete builder. -/
theorem missing_out_dir_panics_witness :
    compile_protos_with_config (configure true) Config.new none
        (Except.ok ()) (Except.ok ()) (Except.ok ()) ["a.proto"] ["dir"]
      = (Except.error (Failure.panicked outDirPanicMsg), []) :=
  missing_out_dir_panics (configure true) Config.new (Except.ok ()) (Except.ok ())
    (Except.ok ()) ["a.proto"] ["dir"] rfl

/-! ### Claim C2 -/

/-- Following the words of claim C2 only, not the source: the claimed "normal
prefixing rules" — crate-rooted names as-is, otherwise proto_path prepended
with a "::" separator. -/
def claimedNormalRule (proto_path rust_type : String) : String :=
  if strStartsWith rust_type "crate::" then rust_type
  else proto_path ++ "::" ++ rust_type

/-- The resolution rule applied to any name not subject to the well-known-type
exemption (the amended claim C2's normal rules): absolute ("::"-rooted) and
allow-listed names unprefixed, crate-rooted names as-is, otherwise the
proto_path prefix is prepended with a "::" separator. -/
def resolveNonWellKnown (proto_path rust_type : String) : String :=
  if strStartsWith rust_type "::" || NON_PATH_TYPE_ALLOWLIST.contains rust_type then
    rust_type
  else if strStartsWith rust_type "crate::" then
    rust_type
  else
    proto_path ++ "::" ++ rust_type

/-- C2, counterexample: with compile_well_known_types = true, a well-known-type
method whose target name is the absolute path "::prost_types::Empty" resolves
unprefixed, not by the claim's stated normal rule (which would prepend the
proto_path). -/
theorem wkt_true_prefixing_counterexample :
    (TonicBuildMethod.request_response_name
        ⟨{ name := "get", proto_name := "Get", comments := ⟨[]⟩,
           input_type := "::prost_types::Empty",
           output_type := "::prost_types::Empty",
           input_proto_type := ".google.protobuf.Empty",
           output_proto_type := ".google.protobuf.Empty",
           client_streaming := false, server_streaming := false }⟩ "super" true).1
      = "::prost_types::Empty" ∧
    claimedNormalRule "super" "::prost_types::Empty" = "super::::prost_types::Empty" ∧
    ("::prost_types::Empty" : String) ≠ "super::::prost_types::Empty" := by
  refine ⟨?_, ?_, ?_⟩ <;> decide

/-- C2 (amended): for a method whose request or response proto type name is a
recognized well-known type, request_response_name with
compile_well_known_types = false resolves that side to the target type name
directly with no prefix; with compile_well_known_types = true it resolves by
the same rules as a non-well-known type: absolute ("::"-rooted) and
allow-listed names unprefixed, crate-rooted names as-is, otherwise proto_path
prepended with a "::" separator. -/
theorem wkt_resolution (m : TonicBuildMethod) (proto_path : String) :
    (is_google_type m.prost_method.input_proto_type = true →
      (m.request_response_name proto_path false).1 = m.prost_method.input_type ∧
      (m.request_response_name proto_path true).1
        = resolveNonWellKnown proto_path m.prost_method.input_type) ∧
    (is_google_type m.prost_method.output_proto_type = true →
      (m.request_response_name proto_path false).2 = m.prost_method.output_type ∧
      (m.request_response_name proto_path true).2
        = resolveNonWellKnown proto_path m.prost_method.output_type) := by
  have key : ∀ pt rt, is_google_type pt = true →
      convert_type proto_path false pt rt = rt ∧
      convert_type proto_path true pt rt = resolveNonWellKnown proto_path rt := by
    intro pt rt h
    constructor
    · simp [convert_type, h]
    · simp [convert_type, h, resolveNonWellKnown]
  constructor
  · intro h
    exact ⟨(key _ _ h).1, (key _ _ h).2⟩
  · intro h
    exact ⟨(key _ _ h).1, (key _ _ h).2⟩

/-- Witness for the amended C2 at a concrete well-known-type method. -/
theorem wkt_resolution_witness :
    is_google_type ".google.protobuf.Timestamp" = true ∧
    (TonicBuildMethod.request_response_name
        ⟨{ name := "now", proto_name := "Now", comments := ⟨[]⟩,
           input_type := "Timestamp", output_type := "Timestamp",
           input_proto_type := ".google.protobuf.Timestamp",
           output_proto_type := ".google.protobuf.Timestamp",
           client_streaming := false, server_streaming := false }⟩ "super" false).1
      = "Timestamp" := by
  refine ⟨by decide, ?_⟩
  exact ((wkt_resolution
    ⟨{ name := "now", proto_name := "Now", comments := ⟨[]⟩,
       input_type := "Timestamp", output_type := "Timestamp",
       input_proto_type := ".google.protobuf.Timestamp",
       output_proto_type := ".google.protobuf.Timestamp",
       client_streaming := false, server_streaming := false }⟩ "super").1
    (by decide)).1

/-! ### Claim C3 -/

/-- C3: for every method and every combination of the compile_well_known_types
flag and proto_path prefix, a request or response target type name equal to
the unit pseudo-type "()" (the sole member of the non-path allow-list) is
resolved by request_response_name to the unprefixed "()" — no prefix is ever
prepended to it. -/
theorem unit_type_always_unprefixed (m : TonicBuildMethod) (proto_path : String)
    (compile_well_known_types : Bool) :
    (∀ proto_type : String,
      convert_type proto_path compile_well_known_types proto_type "()" = "()") ∧
    (m.prost_method.input_type = "()" →
      (m.request_response_name proto_path compile_well_known_types).1 = "()") ∧
    (m.prost_method.output_type = "()" →
      (m.request_response_name proto_path compile_well_known_types).2 = "()") := by
  have base : ∀ pt, convert_type proto_path compile_well_known_types pt "()" = "()" := by
    intro pt
    have hcond : ((is_google_type pt && !compile_well_known_types)
        || strStartsWith "()" "::"
        || NON_PATH_TYPE_ALLOWLIST.contains "()") = true := by
      rw [show NON_PATH_TYPE_ALLOWLIST.contains "()" = true from by decide,
        Bool.or_true]
    unfold convert_type
    rw [hcond]
    simp
  refine ⟨base, fun h => ?_, fun h => ?_⟩
  · simp [TonicBuildMethod.request_response_name, h, base]
  · simp [TonicBuildMethod.request_response_name, h, base]

/-- Witness for C3 at a concrete method whose response type is "()". -/
theorem unit_type_always_unprefixed_witness :
    (TonicBuildMethod.request_response_name
        ⟨{ name := "ping", proto_name := "Ping", comments := ⟨[]⟩,
           input_type := "()", output_type := "()",
           input_proto_type := ".test.Unit", output_proto_type := ".test.Unit",
           client_streaming := false, server_streaming := false }⟩
        "super" true).2 = "()" :=
  ((unit_type_always_unprefixed
    ⟨{ name := "ping", proto_name := "Ping", comments := ⟨[]⟩,
       input_type := "()", output_type := "()",
       input_proto_type := ".test.Unit", output_proto_type := ".test.Unit",
       client_streaming := false, server_streaming := false }⟩
    "super" true).2.2 rfl)

/-! ### Claim C5 -/

/-- C5, counterexample: calling the boxed setter twice appends rather than
replaces — both paths remain and both are forwarded to the generation
configuration at compile time, so "only the last-set list is honored" fails
for `boxed`. -/
theorem boxed_replace_counterexample :
    (((configure false).set_boxed "a.b").set_boxed "c.d").boxed = ["a.b", "c.d"] ∧
    (applySettings (((configure false).set_boxed "a.b").set_boxed "c.d")
        Config.new).boxed = ["a.b", "c.d"] ∧
    (["a.b", "c.d"] : List String) ≠ ["c.d"] := by
  refine ⟨rfl, rfl, by decide⟩

/-- C5 (amended): the btree_map and bytes path-list setters replace the
previously set list, and only the last-set list reaches the generation
configuration at compile time; the boxed path setter instead appends, and
every accumulated boxed path is forwarded at compile time. -/
theorem replace_vs_append_setters (b : Builder) (c : Config)
    (p₁ p₂ : String) (ps₁ ps₂ : List String) :
    ((b.set_btree_map ps₁).set_btree_map ps₂).btree_map = some ps₂ ∧
    ((b.set_bytes ps₁).set_bytes ps₂).bytes = some ps₂ ∧
    (applySettings ((b.set_btree_map ps₁).set_btree_map ps₂) c).btree_map = ps₂ ∧
    (applySettings ((b.set_bytes ps₁).set_bytes ps₂) c).bytes = ps₂ ∧
    ((b.set_boxed p₁).set_boxed p₂).boxed = b.boxed ++ [p₁, p₂] ∧
    (applySettings ((b.set_boxed p₁).set_boxed p₂) c).boxed
      = c.boxed ++ (b.boxed ++ [p₁, p₂]) := by
  refine ⟨rfl, rfl, ?_, ?_, ?_, ?_⟩
  · simp [applySettings_eq, Builder.set_btree_map]
  · simp [applySettings_eq, Builder.set_bytes, Builder.set_btree_map]
  · simp [Builder.set_boxed]
  · simp [applySettings_eq, Builder.set_boxed]

/-! ### Claim C9 -/

/-- C9: type-reference resolution is deterministic and free of hidden state —
the result of request_response_name depends only on the method's four type
name fields, the proto_path prefix and the compile_well_known_types flag, so
two runs on the same data always agree. -/
theorem resolution_no_hidden_state (m₁ m₂ : TonicBuildMethod)
    (proto_path : String) (compile_well_known_types : Bool)
    (h₁ : m₁.prost_method.input_proto_type = m₂.prost_method.input_proto_type)
    (h₂ : m₁.prost_method.input_type = m₂.prost_method.input_type)
    (h₃ : m₁.prost_method.output_proto_type = m₂.prost_method.output_proto_type)
    (h₄ : m₁.prost_method.output_type = m₂.prost_method.output_type) :
    m₁.request_response_name proto_path compile_well_known_types
      = m₂.request_response_name proto_path compile_well_known_types := by
  simp [TonicBuildMethod.request_response_name, h₁, h₂, h₃, h₄]

/-- Witness for C9: two methods that differ in everything except the four type
name fields resolve identically. -/
theorem resolution_no_hidden_state_witness :
    TonicBuildMethod.request_response_name
        ⟨{ name := "a", proto_name := "A", comments := ⟨["one"]⟩,
           input_type := "HelloRequest", output_type := "HelloReply",
           input_proto_type := ".greeter.HelloRequest",
           output_proto_type := ".greeter.HelloReply",
           client_streaming := false, server_streaming := false }⟩ "super" false
      = TonicBuildMethod.request_response_name
        ⟨{ name := "b", proto_name := "B", comments := ⟨["two"]⟩,
           input_type := "HelloRequest", output_type := "HelloReply",
           input_proto_type := ".greeter.HelloRequest",
           output_proto_type := ".greeter.HelloReply",
           client_streaming := true, server_streaming := true }⟩ "super" false :=
  resolution_no_hidden_state _ _ "super" false rfl rfl rfl rfl

/-! ### Claim C10 -/

/-- C10: calling codec_path on any method adapter value unconditionally panics
(it is declared unreachable), while the madsim generation pipeline's view of a
method — the capability set the emission stage reads — is computed without it
and never panics, so only an external caller of the Method interface can reach
the panic. -/
theorem codec_path_unreachable (m : TonicBuildMethod) (proto_path : String)
    (compile_well_known_types : Bool) :
    m.codec_path
      = CallResult.panicked "codec_path is not used in madsim-tonic-build" ∧
    (∃ v, m.view proto_path compile_well_known_types = CallResult.ok v) :=
  ⟨rfl, ⟨_, rfl⟩⟩

/-! ### Claim C4 -/

/-- C4: the simulated pass always runs before the production pass (a trace
holds no pass, the simulated pass alone, or the simulated then the production
pass); when the simulated pass runs and fails, that error is returned and the
production pass never starts; and a success return means both passes ran and
completed. -/
theorem pass_ordering (b : Builder) (c : Config) (env : Option String)
    (mk sim prod : Except IoError Unit) (protos includes : List String)
    (r : Except Failure Unit) (tr : List Event)
    (h : compile_protos_with_config b c env mk sim prod protos includes = (r, tr)) :
    (passTrace tr = [] ∨ passTrace tr = [PassKind.sim]
      ∨ passTrace tr = [PassKind.sim, PassKind.prod]) ∧
    (∀ e, sim = Except.error e → PassKind.sim ∈ passTrace tr →
      r = Except.error (Failure.ioErr e) ∧ passTrace tr = [PassKind.sim]) ∧
    (r = Except.ok () →
      sim = Except.ok () ∧ prod = Except.ok ()
        ∧ passTrace tr = [PassKind.sim, PassKind.prod]) := by
  have hr : r = (compile_protos_with_config b c env mk sim prod protos includes).1 := by
    rw [h]
  have ht : tr = (compile_protos_with_config b c env mk sim prod protos includes).2 := by
    rw [h]
  subst hr
  subst ht
  rcases hres : resolvedOutDir b env with _ | root
  · unfold compile_protos_with_config
    rw [hres]
    refine ⟨Or.inl rfl, ?_, ?_⟩
    · intro e _ hmem
      simp [passTrace] at hmem
    · intro hok
      exact absurd hok (by simp)
  · rw [compile_resolved b c env mk sim prod protos includes root hres,
      compileAfterOutDir_fst, compileAfterOutDir_trace]
    cases mk with
    | error e =>
      refine ⟨Or.inl (by simp [passTrace]), ?_, ?_⟩
      · intro e' _ hmem
        simp [passTrace] at hmem
      · intro hok
        exact absurd hok (by simp)
    | ok _ =>
      cases sim with
      | error e =>
        have htr : passTrace ((Event.createDirAll (pathJoin root "sim") ::
            (if b.emit_rerun_if_changed then
              protos.map Event.rerunIfChanged ++ includes.map Event.rerunIfChanged
            else [])) ++ [Event.simPass (simCfg b c root)])
            = [PassKind.sim] := by
          rw [passTrace_append, passTrace_cons_createDir, passTrace_rerun_if]
          rfl
        refine ⟨Or.inr (Or.inl htr), ?_, ?_⟩
        · intro e' he' _
          injection he' with he''
          subst he''
          exact ⟨rfl, htr⟩
        · intro hok
          exact absurd hok (by simp)
      | ok _ =>
        cases prod with
        | error e =>
          have htr : passTrace ((Event.createDirAll (pathJoin root "sim") ::
              (if b.emit_rerun_if_changed then
                protos.map Event.rerunIfChanged ++ includes.map Event.rerunIfChanged
              else [])) ++ [Event.simPass (simCfg b c root),
                Event.prodPass b.builder (prodCfg b c root)])
              = [PassKind.sim, PassKind.prod] := by
            rw [passTrace_append, passTrace_cons_createDir, passTrace_rerun_if]
            rfl
          refine ⟨Or.inr (Or.inr htr), ?_, ?_⟩
          · intro e' he'
            exact Except.noConfusion he'
          · intro hok
            exact absurd hok (by simp)
        | ok _ =>
          have htr : passTrace ((Event.createDirAll (pathJoin root "sim") ::
              (if b.emit_rerun_if_changed then
                protos.map Event.rerunIfChanged ++ includes.map Event.rerunIfChanged
              else [])) ++ [Event.simPass (simCfg b c root),
                Event.prodPass b.builder (prodCfg b c root)])
              = [PassKind.sim, PassKind.prod] := by
            rw [passTrace_append, passTrace_cons_createDir, passTrace_rerun_if]
            rfl
          refine ⟨Or.inr (Or.inr htr), ?_, ?_⟩
          · intro e' he'
            exact Except.noConfusion he'
          · intro _
            exact ⟨rfl, rfl, htr⟩

/-- Witness for C4: a concrete run whose simulated pass fails returns that
error and records no production pass. -/
theorem pass_ordering_witness :
    (compile_protos_with_config ((configure false).set_out_dir "out") Config.new
        none (Except.ok ()) (Except.error "sim failed") (Except.ok ()) [] []).1
      = Except.error (Failure.ioErr "sim failed") ∧
    passTrace (compile_protos_with_config ((configure false).set_out_dir "out")
        Config.new none (Except.ok ()) (Except.error "sim failed")
        (Except.ok ()) [] []).2
      = [PassKind.sim] :=
  (pass_ordering ((configure false).set_out_dir "out") Config.new none
      (Except.ok ()) (Except.error "sim failed") (Except.ok ()) [] [] _ _ rfl).2.1
    "sim failed" rfl (by decide)

/-! ### Claim C6 -/

/-- C6: extern_path and the field/type/message/enum attribute setters are
purely additive — each call appends exactly one entry at the end, keeping all
existing entries in order and allowing duplicates — and at compile time every
accumulated entry is appended onto the generation configuration. -/
theorem additive_setters_forwarded (b : Builder) (c : Config)
    (env : Option String) (mk sim prod : Except IoError Unit)
    (protos includes : List String) (p q pat attr : String) :
    (b.set_extern_path p q).extern_path = b.extern_path ++ [(p, q)] ∧
    (b.field_attribute pat attr).field_attributes
      = b.field_attributes ++ [(pat, attr)] ∧
    (b.type_attribute pat attr).type_attributes
      = b.type_attributes ++ [(pat, attr)] ∧
    (b.message_attribute pat attr).message_attributes
      = b.message_attributes ++ [(pat, attr)] ∧
    (b.enum_attribute pat attr).enum_attributes
      = b.enum_attributes ++ [(pat, attr)] ∧
    (∀ cfg, Event.simPass cfg
        ∈ (compile_protos_with_config b c env mk sim prod protos includes).2 →
      cfg.extern_path = c.extern_path ++ b.extern_path ∧
      cfg.field_attributes = c.field_attributes ++ b.field_attributes ∧
      cfg.type_attributes = c.type_attributes ++ b.type_attributes ∧
      cfg.message_attributes = c.message_attributes ++ b.message_attributes ∧
      cfg.enum_attributes = c.enum_attributes ++ b.enum_attributes) := by
  refine ⟨rfl, rfl, rfl, rfl, rfl, ?_⟩
  intro cfg hmem
  rcases hres : resolvedOutDir b env with _ | root
  · unfold compile_protos_with_config at hmem
    rw [hres] at hmem
    simp at hmem
  · rw [compile_resolved b c env mk sim prod protos includes root hres] at hmem
    have hcfg := simPass_mem_trace b c mk sim prod protos includes root cfg hmem
    subst hcfg
    refine ⟨?_, ?_, ?_, ?_, ?_⟩ <;> simp [simCfg, applySettings_eq]

/-- Witness for C6: in a concrete run, the simulated pass's configuration
holds the builder's accumulated extern path appended onto the caller's. -/
theorem additive_setters_forwarded_witness :
    (simCfg (((configure false).set_out_dir "out").set_extern_path ".a" "::acrate")
        Config.new "out").extern_path
      = Config.new.extern_path
        ++ (((configure false).set_out_dir "out").set_extern_path ".a" "::acrate").extern_path :=
  ((additive_setters_forwarded
      (((configure false).set_out_dir "out").set_extern_path ".a" "::acrate")
      Config.new none (Except.ok ()) (Except.ok ()) (Except.ok ()) [] []
      "p" "q" "pat" "attr").2.2.2.2.2
    (simCfg (((configure false).set_out_dir "out").set_extern_path ".a" "::acrate")
      Config.new "out")
    (by decide)).1

/-! ### Claim C8 -/

/-- C8: the run first creates the "sim" subdirectory joined onto the resolved
output root (returning the I/O error and running no pass if creation fails);
every simulated-pass configuration outputs to that subdirectory, and every
production-pass configuration outputs to the un-suffixed root itself. -/
theorem output_directories (b : Builder) (c : Config) (env : Option String)
    (mk sim prod : Except IoError Unit) (protos includes : List String)
    (root : String) (r : Except Failure Unit) (tr : List Event)
    (hres : resolvedOutDir b env = some root)
    (h : compile_protos_with_config b c env mk sim prod protos includes = (r, tr)) :
    tr.head? = some (Event.createDirAll (pathJoin root "sim")) ∧
    (∀ e, mk = Except.error e →
      r = Except.error (Failure.ioErr e) ∧ passTrace tr = []) ∧
    (∀ cfg, Event.simPass cfg ∈ tr →
      cfg.out_dir = some (pathJoin root "sim")) ∧
    (∀ tb cfg, Event.prodPass tb cfg ∈ tr → cfg.out_dir = some root) := by
  have hr : r = (compile_protos_with_config b c env mk sim prod protos includes).1 := by
    rw [h]
  have ht : tr = (compile_protos_with_config b c env mk sim prod protos includes).2 := by
    rw [h]
  subst hr
  subst ht
  rw [compile_resolved b c env mk sim prod protos includes root hres]
  refine ⟨?_, ?_, ?_, ?_⟩
  · rw [compileAfterOutDir_trace]
    cases mk <;> rfl
  · intro e he
    subst he
    rw [compileAfterOutDir_fst, compileAfterOutDir_trace]
    exact ⟨rfl, rfl⟩
  · intro cfg hmem
    have hcfg := simPass_mem_trace b c mk sim prod protos includes root cfg hmem
    subst hcfg
    simp [simCfg, applySettings_eq]
  · intro tb cfg hmem
    have hcfg := (prodPass_mem_trace b c mk sim prod protos includes root tb cfg hmem).2
    subst hcfg
    simp [prodCfg]

/-- Witness for C8: a concrete successful run creates "out/sim" first. -/
theorem output_directories_witness :
    ((compile_protos_with_config ((configure false).set_out_dir "out") Config.new
        none (Except.ok ()) (Except.ok ()) (Except.ok ()) [] []).2).head?
      = some (Event.createDirAll (pathJoin "out" "sim")) :=
  (output_directories ((configure false).set_out_dir "out") Config.new none
      (Except.ok ()) (Except.ok ()) (Except.ok ()) [] [] "out" _ _ rfl rfl).1

end MadsimTonicBuild
